import Mathlib

/-!
Shallow embedding of the influxdb-rust client-library core: the query model
(src/src/query/mod.rs, src/src/query/read_query.rs), the client's request
construction and response classification (src/src/client/mod.rs), and the
serde result decoder (src/src/integrations/serde_integration.rs).

External collaborators (the reqwest HTTP transport, the url crate's parser,
serde_json, std's UTF-8 validation) appear as explicit parameters; machine
integers that cannot overflow in the modelled paths (usize timestamps) are
Nat.
-/

namespace Influx

/-- One step of the substring scan: does `needle` occur at the head of
`hay`? -/
def matchesAt : List Char → List Char → Bool
  | [], _ => true
  | _ :: _, [] => false
  | c :: cs, d :: ds => c == d && matchesAt cs ds

/-- Does `needle` occur contiguously anywhere in `hay`? -/
def occursIn (needle : List Char) : List Char → Bool
  | [] => matchesAt needle []
  | d :: ds => matchesAt needle (d :: ds) || occursIn needle ds

/-- Rust `str::contains` with a string pattern: `needle` occurs as a
contiguous substring of `hay` (the empty needle always matches). -/
def strContains (hay needle : String) : Bool :=
  occursIn needle.toList hay.toList

/-- Modelled from the spec: the error taxonomy of §7. Its declaration lives
in src/error.rs, which is not among the given source files; the variant names
and payload shapes are reconstructed from their construction sites in
src/src/client/mod.rs and src/src/integrations/serde_integration.rs. The
transport error carried by `ConnectionError` is modelled as its rendered
message. -/
inductive InfluxDbError where
  | InvalidQueryError (error : String)
  | UrlConstructionError (error : String)
  | ProtocolError (error : String)
  | ConnectionError (error : String)
  | AuthorizationError
  | AuthenticationError
  | DatabaseError (error : String)
  | DeserializationError (error : String)
  deriving DecidableEq, Repr

/-- Modelled from the spec: the Display rendering of an error, used by
query() to wrap a build failure's message (src/src/client/mod.rs:190); the
Display impl lives in the absent src/error.rs. Only its totality matters to
the claims below, never the exact text. -/
def InfluxDbError.display : InfluxDbError → String
  | .InvalidQueryError e => e
  | .UrlConstructionError e => e
  | .ProtocolError e => e
  | .ConnectionError e => e
  | .AuthorizationError => "authorization error"
  | .AuthenticationError => "authentication error"
  | .DatabaseError e => e
  | .DeserializationError e => e

/-- Timestamp (src/src/query/mod.rs:63-72); the Rust payloads are usize,
hence Nat. -/
inductive Timestamp where
  | NOW
  | NANOSECONDS (ts : Nat)
  | MICROSECONDS (ts : Nat)
  | MILLISECONDS (ts : Nat)
  | SECONDS (ts : Nat)
  | MINUTES (ts : Nat)
  | HOURS (ts : Nat)
  deriving DecidableEq, Repr

/-- fmt::Display for Timestamp (src/src/query/mod.rs:74-83). -/
def Timestamp.fmt : Timestamp → String
  | .NOW => ""
  | .NANOSECONDS ts | .MICROSECONDS ts | .MILLISECONDS ts
  | .SECONDS ts | .MINUTES ts | .HOURS ts => toString ts

/-- The integer carried by a unit-tagged Timestamp (none for NOW). -/
def Timestamp.value : Timestamp → Option Nat
  | .NOW => none
  | .NANOSECONDS ts | .MICROSECONDS ts | .MILLISECONDS ts
  | .SECONDS ts | .MINUTES ts | .HOURS ts => some ts

/-- ValidQuery (src/src/query/mod.rs:102-104): a wrapper around the rendered
query string. -/
structure ValidQuery where
  val : String
  deriving DecidableEq, Repr

/-- ValidQuery::get (src/src/query/mod.rs:106-108). -/
def ValidQuery.get (self : ValidQuery) : String :=
  self.val

/-- The public From impl for ValidQuery (src/src/query/mod.rs:110-117): any
string converts into a ValidQuery without passing through build(). -/
def ValidQuery.fromStr (s : String) : ValidQuery :=
  ⟨s⟩

/-- PartialEq of ValidQuery against an owned or borrowed string
(src/src/query/mod.rs:118-127). -/
def ValidQuery.eqStr (self : ValidQuery) (other : String) : Bool :=
  self.val == other

/-- InfluxDbReadQuery (src/src/query/read_query.rs:8-10). -/
structure InfluxDbReadQuery where
  queries : List String
  deriving DecidableEq, Repr

/-- InfluxDbReadQuery::build (src/src/query/read_query.rs:13-15): always Ok,
the statements joined with a semicolon. -/
def InfluxDbReadQuery.build (self : InfluxDbReadQuery) :
    Except InfluxDbError ValidQuery :=
  .ok ⟨String.intercalate ";" self.queries⟩

/-- InfluxDbReadQuery::new (src/src/query/read_query.rs:17-24). -/
def InfluxDbReadQuery.new (query : String) : InfluxDbReadQuery :=
  ⟨[query]⟩

/-- InfluxDbReadQuery::add (src/src/query/read_query.rs:27-33). -/
def InfluxDbReadQuery.add (self : InfluxDbReadQuery) (query : String) :
    InfluxDbReadQuery :=
  ⟨self.queries ++ [query]⟩

/-- The read-query values constructible through the public interface: `new`
starts from one statement, `add` appends one. -/
inductive InfluxDbReadQuery.Reachable : InfluxDbReadQuery → Prop where
  | new (query : String) : Reachable (InfluxDbReadQuery.new query)
  | add (q : InfluxDbReadQuery) (query : String) :
      Reachable q → Reachable (q.add query)

/-- The read query obtained by `new first` followed by `add` for each element
of `rest`, in order. -/
def readFromStatements (first : String) (rest : List String) :
    InfluxDbReadQuery :=
  rest.foldl InfluxDbReadQuery.add (InfluxDbReadQuery.new first)

/-- Modelled from the spec: the field-value type of a write query (§3); the
write-query module src/query/write_query.rs is not among the given source
files. Values may be string, integer, float or boolean. -/
inductive InfluxDbType where
  | Text (s : String)
  | SignedInteger (i : Int)
  | Float (f : Float)
  | Boolean (b : Bool)
  deriving Repr

/-- Modelled from the spec (§4.1): escaping of commas, spaces and equals
signs in tag keys, tag values and field keys, each escaped with a
backslash. -/
def lineEscape (s : String) : String :=
  String.mk (s.toList.foldr
    (fun c acc => if c == ',' || c == ' ' || c == '=' then '\\' :: c :: acc else c :: acc)
    [])

/-- Modelled from the spec (§4.1): line-protocol rendering of one field
value — strings double-quoted with inner quotes and backslashes escaped,
integers suffixed with `i`, floats as decimal, booleans as true/false. -/
def InfluxDbType.render : InfluxDbType → String
  | .Text s =>
      "\"" ++
        String.mk (s.toList.foldr
          (fun c acc => if c == '"' || c == '\\' then '\\' :: c :: acc else c :: acc)
          []) ++ "\""
  | .SignedInteger i => toString i ++ "i"
  | .Float f => toString f
  | .Boolean b => if b then "true" else "false"

/-- Modelled from the spec (§3): an InfluxDbWriteQuery owns a measurement
name, tag pairs, field pairs and a Timestamp, insertion order preserved; the
precision marker is derived from the timestamp's unit (§6). Its module
src/query/write_query.rs is not among the given source files. -/
structure InfluxDbWriteQuery where
  measurement : String
  tags : List (String × String)
  fields : List (String × InfluxDbType)
  timestamp : Timestamp
  deriving Repr

/-- Modelled from the spec (§6): the write precision request parameter, one
of ns|u|ms|s|m|h matching the Timestamp unit. The spec fixes no string for a
NOW timestamp; the default unit ns stands in. -/
def InfluxDbWriteQuery.get_precision (self : InfluxDbWriteQuery) : String :=
  match self.timestamp with
  | .NOW => "ns"
  | .NANOSECONDS _ => "ns"
  | .MICROSECONDS _ => "u"
  | .MILLISECONDS _ => "ms"
  | .SECONDS _ => "s"
  | .MINUTES _ => "m"
  | .HOURS _ => "h"

/-- Modelled from the spec (§4.1 Write): build fails with an InvalidQuery
error when no fields were added; otherwise it renders the measurement, a
comma-prefixed comma-joined tag list, a space, a comma-joined field list and,
unless the timestamp is NOW, a trailing space and the rendered timestamp. -/
def InfluxDbWriteQuery.build (self : InfluxDbWriteQuery) :
    Except InfluxDbError ValidQuery :=
  if self.fields.isEmpty then
    .error (.InvalidQueryError "fields are required to construct a valid write query")
  else
    let tagStr :=
      if self.tags.isEmpty then ""
      else "," ++ String.intercalate ","
        (self.tags.map (fun kv => lineEscape kv.1 ++ "=" ++ lineEscape kv.2))
    let fieldStr := String.intercalate ","
      (self.fields.map (fun kv => lineEscape kv.1 ++ "=" ++ kv.2.render))
    let tsStr :=
      match self.timestamp with
      | .NOW => ""
      | t => " " ++ t.fmt
    .ok ⟨self.measurement ++ tagStr ++ " " ++ fieldStr ++ tsStr⟩

/-- Modelled from the spec: InfluxDbWriteQuery::new starts with no tags and
no fields. -/
def InfluxDbWriteQuery.new (timestamp : Timestamp) (measurement : String) :
    InfluxDbWriteQuery :=
  ⟨measurement, [], [], timestamp⟩

/-- Modelled from the spec: add_field appends one field pair, preserving
insertion order. -/
def InfluxDbWriteQuery.add_field (self : InfluxDbWriteQuery)
    (key : String) (value : InfluxDbType) : InfluxDbWriteQuery :=
  { self with fields := self.fields ++ [(key, value)] }

/-- Modelled from the spec: add_tag appends one tag pair, preserving
insertion order. -/
def InfluxDbWriteQuery.add_tag (self : InfluxDbWriteQuery)
    (key value : String) : InfluxDbWriteQuery :=
  { self with tags := self.tags ++ [(key, value)] }

/-- InfluxDbQuery (src/src/query/mod.rs:86-89). -/
inductive InfluxDbQuery where
  | Write (q : InfluxDbWriteQuery)
  | Read (q : InfluxDbReadQuery)

/-- InfluxDbQuery::build (src/src/query/mod.rs:92-99). -/
def InfluxDbQuery.build : InfluxDbQuery → Except InfluxDbError ValidQuery
  | .Write write_query => write_query.build
  | .Read read_query => read_query.build

/-- The ways a ValidQuery value is obtainable through the crate's public
interface: as the payload of a successful build() (src/src/query/mod.rs:92-99
and the two builders behind it), or directly from any string through the
public From impl (src/src/query/mod.rs:110-117). -/
inductive ValidQuerySource where
  | viaBuild (q : InfluxDbQuery) (v : ValidQuery) (h : q.build = .ok v)
  | viaFrom (s : String)

/-- The ValidQuery a construction path yields. -/
def ValidQuerySource.result : ValidQuerySource → ValidQuery
  | .viaBuild _ v _ => v
  | .viaFrom s => ValidQuery.fromStr s

/-- Whether a construction path went through a successful build(). -/
def ValidQuerySource.usedBuild : ValidQuerySource → Bool
  | .viaBuild _ _ _ => true
  | .viaFrom _ => false

/-- InfluxDbAuthentication (src/src/client/mod.rs:27-30). -/
structure InfluxDbAuthentication where
  username : String
  password : String
  deriving DecidableEq, Repr

/-- InfluxDbClient (src/src/client/mod.rs:34-39); the reqwest transport
handle is an external collaborator and carries no modelled state. -/
structure InfluxDbClient where
  url : String
  database : String
  auth : Option InfluxDbAuthentication
  deriving DecidableEq, Repr

/-- InfluxDbClient::new (src/src/client/mod.rs:80-91). -/
def InfluxDbClient.new (url database : String) : InfluxDbClient :=
  ⟨url, database, none⟩

/-- InfluxDbClient::with_auth (src/src/client/mod.rs:107-117). -/
def InfluxDbClient.with_auth (self : InfluxDbClient)
    (username password : String) : InfluxDbClient :=
  { self with auth := some ⟨username, password⟩ }

/-- InfluxDbClient::database_name (src/src/client/mod.rs:120-122). -/
def InfluxDbClient.database_name (self : InfluxDbClient) : String :=
  self.database

/-- InfluxDbClient::database_url (src/src/client/mod.rs:125-127). -/
def InfluxDbClient.database_url (self : InfluxDbClient) : String :=
  self.url

/-- Into a Vec of (String, String) for an owned InfluxDbClient
(src/src/client/mod.rs:41-51): push db, then u and p when auth is set. -/
def InfluxDbClient.intoParams (self : InfluxDbClient) :
    List (String × String) :=
  match self.auth with
  | some auth => [("db", self.database), ("u", auth.username), ("p", auth.password)]
  | none => [("db", self.database)]

/-- Into a Vec of (String, String) for a borrowed InfluxDbClient
(src/src/client/mod.rs:53-63): the same pushes over cloned strings. -/
def InfluxDbClient.intoParamsRef (self : InfluxDbClient) :
    List (String × String) :=
  ("db", self.database) ::
    (match self.auth with
     | some auth => [("u", auth.username), ("p", auth.password)]
     | none => [])

/-- The value the external url crate's Url::parse_with_params yields on
success: the parsed base address with its query pairs in order. -/
structure Url where
  address : String
  params : List (String × String)
  deriving DecidableEq, Repr

/-- url.query_pairs_mut().append_pair(key, value): appends one query pair. -/
def Url.appendPair (self : Url) (key value : String) : Url :=
  { self with params := self.params ++ [(key, value)] }

/-- The external Url::parse_with_params, abstracted: from the base string and
the parameter list to a parse-error message or a parsed Url. -/
abbrev UrlParse : Type :=
  String → List (String × String) → Except String Url

/-- The HTTP method chosen by the client. -/
inductive Method where
  | GET
  | POST
  deriving DecidableEq, Repr

/-- The request assembled by query()/json_query() just before send(): method,
URL and optional body. -/
structure Request where
  method : Method
  url : Url
  body : Option String
  deriving DecidableEq, Repr

/-- The request-construction phase of InfluxDbClient::query
(src/src/client/mod.rs:183-233), everything up to and excluding the network
send; parseUrl stands for the external Url::parse_with_params. Note the Write
arm wraps a URL parse failure in InvalidQueryError
(src/src/client/mod.rs:225) while the Read arm uses UrlConstructionError
(src/src/client/mod.rs:206). -/
def InfluxDbClient.queryPrepare (self : InfluxDbClient) (parseUrl : UrlParse)
    (q : InfluxDbQuery) : Except InfluxDbError Request :=
  let basic_parameters := self.intoParamsRef
  match q.build with
  | .error err => .error (.InvalidQueryError err.display)
  | .ok query =>
    match q with
    | .Read _ =>
      let read_query := query.get
      match parseUrl (self.database_url ++ "/query") basic_parameters with
      | .error err => .error (.UrlConstructionError err)
      | .ok url =>
        let url := url.appendPair "q" read_query
        if strContains read_query "SELECT" || strContains read_query "SHOW" then
          .ok ⟨.GET, url, none⟩
        else
          .ok ⟨.POST, url, none⟩
    | .Write write_query =>
      match parseUrl (self.database_url ++ "/write") basic_parameters with
      | .error err => .error (.InvalidQueryError err)
      | .ok url =>
        let url := url.appendPair "precision" write_query.get_precision
        .ok ⟨.POST, url, some query.get⟩

/-- The response-classification phase of InfluxDbClient::query
(src/src/client/mod.rs:234-255), after the send: `status` is the numeric HTTP
status, `utf8Body` the outcome of std::str::from_utf8 on the body bytes (some
decoded text, or none when the bytes are not valid UTF-8). -/
def queryHandleResponse (status : Nat) (utf8Body : Option String) :
    Except InfluxDbError String :=
  if status == 401 then .error .AuthorizationError
  else if status == 403 then .error .AuthenticationError
  else
    match utf8Body with
    | some s =>
      if strContains s "\"error\"" then
        .error (.DatabaseError ("influxdb error: \"" ++ s ++ "\""))
      else
        .ok s
    | none =>
      .error (.DeserializationError
        "response could not be converted to UTF-8 encoded string")

/-- The value json_query unwraps from q.build()
(src/src/integrations/serde_integration.rs:112); a read build is always Ok
(src/src/query/read_query.rs:13-15), so the error branch is unreachable. -/
def readBuildValue (q : InfluxDbReadQuery) : ValidQuery :=
  match q.build with
  | .ok v => v
  | .error _ => ⟨""⟩

/-- The request-construction phase of InfluxDbClient::json_query
(src/src/integrations/serde_integration.rs:108-141), up to and excluding the
send: URL construction comes first, then the SELECT/SHOW gate decides between
a GET request and the invalid-query rejection. -/
def InfluxDbClient.jsonQueryPrepare (self : InfluxDbClient)
    (parseUrl : UrlParse) (q : InfluxDbReadQuery) :
    Except InfluxDbError Request :=
  let query := readBuildValue q
  let basic_parameters := self.intoParamsRef
  let read_query := query.get
  match parseUrl (self.database_url ++ "/query") basic_parameters with
  | .error err => .error (.UrlConstructionError err)
  | .ok url =>
    let url := url.appendPair "q" read_query
    if strContains read_query "SELECT" || strContains read_query "SHOW" then
      .ok ⟨.GET, url, none⟩
    else
      .error (.InvalidQueryError
        "Only SELECT and SHOW queries supported with JSON deserialization")

/-- serde_json::Value, as far as the decoder model needs its shape. -/
inductive Json where
  | null
  | bool (b : Bool)
  | num (n : Int)
  | str (s : String)
  | arr (elems : List Json)
  | obj (entries : List (String × Json))

/-- DatabaseQueryResult (src/src/integrations/serde_integration.rs:76-78):
the top-level list of not-yet-consumed result values. -/
structure DatabaseQueryResult where
  results : List Json

/-- A computation that may abort with a Rust panic instead of returning. -/
inductive PanicOr (α : Type) where
  | panicked
  | value (a : α)

/-- DatabaseQueryResult::deserialize_next
(src/src/integrations/serde_integration.rs:81-91): `decode` stands for the
external serde_json::from_value at the target type. The code first evaluates
self.results.remove(0), which panics with an index-out-of-bounds when
`results` is empty — hence the PanicOr codomain; otherwise the head is
consumed and its decode outcome is returned together with the shrunk
state. -/
def DatabaseQueryResult.deserialize_next {α : Type}
    (decode : Json → Except String α) (self : DatabaseQueryResult) :
    PanicOr (Except InfluxDbError α × DatabaseQueryResult) :=
  match self.results with
  | [] => .panicked
  | x :: rest =>
    match decode x with
    | .ok item => .value (.ok item, ⟨rest⟩)
    | .error err =>
        .value (.error (.DeserializationError ("could not deserialize: " ++ err)), ⟨rest⟩)

/-- Folding `add` over a list of statements appends them to the accumulated
query's statement list, in order. -/
theorem readFold_queries (rest : List String) (acc : InfluxDbReadQuery) :
    (rest.foldl InfluxDbReadQuery.add acc).queries = acc.queries ++ rest := by
  induction rest generalizing acc with
  | nil => simp
  | cons x xs ih => simp [InfluxDbReadQuery.add, ih]

/-- C1: the claim says that deserialize_next on a DatabaseQueryResult with an
empty remaining results list returns a normal error value and never panics.
The code instead evaluates self.results.remove(0) first, which is an
index-out-of-bounds panic on an empty Vec: for every decoder the call
panics rather than returning any error value. -/
theorem c1_deserialize_next_on_empty_results_panics {α : Type}
    (decode : Json → Except String α) :
    DatabaseQueryResult.deserialize_next decode ⟨[]⟩ = PanicOr.panicked ∧
    ∀ out, DatabaseQueryResult.deserialize_next decode ⟨[]⟩ ≠ PanicOr.value out := by
  exact ⟨rfl, fun out h => by simp [DatabaseQueryResult.deserialize_next] at h⟩

/-- C2: the claim says a URL-construction failure surfaces as
UrlConstructionError on the Read path and the Write path alike. At a parse
oracle that fails (a malformed base URL), the Read arm of query() does return
UrlConstructionError, but the Write arm wraps the same parse failure in
InvalidQueryError (src/src/client/mod.rs:225) — for no message is the Write
result a UrlConstructionError. Both happen before any request is built. -/
theorem c2_url_failure_error_kinds :
    ((InfluxDbClient.new "not a base" "test").queryPrepare
        (fun _ _ => .error "relative URL without a base")
        (.Read (InfluxDbReadQuery.new "SELECT * FROM a"))
      = .error (.UrlConstructionError "relative URL without a base")) ∧
    ((InfluxDbClient.new "not a base" "test").queryPrepare
        (fun _ _ => .error "relative URL without a base")
        (.Write (InfluxDbWriteQuery.new .NOW "m" |>.add_field "f" (.Boolean true)))
      = .error (.InvalidQueryError "relative URL without a base")) ∧
    (∀ msg, (InfluxDbClient.new "not a base" "test").queryPrepare
        (fun _ _ => .error "relative URL without a base")
        (.Write (InfluxDbWriteQuery.new .NOW "m" |>.add_field "f" (.Boolean true)))
      ≠ .error (.UrlConstructionError msg)) := by
  refine ⟨rfl, rfl, ?_⟩
  intro msg h
  simp [InfluxDbClient.queryPrepare, InfluxDbQuery.build, InfluxDbWriteQuery.build,
    InfluxDbWriteQuery.new, InfluxDbWriteQuery.add_field] at h

/-- C3 counterexample: the public From impl (src/src/query/mod.rs:110-117)
constructs a ValidQuery directly from an arbitrary un-rendered string — a
construction path through the public interface that is not a successful
build() step. -/
theorem c3_validquery_from_arbitrary_string_counterexample :
    (ValidQuerySource.viaFrom "DROP DATABASE test").usedBuild = false ∧
    ((ValidQuerySource.viaFrom "DROP DATABASE test").result).get = "DROP DATABASE test" ∧
    (ValidQuery.fromStr "DROP DATABASE test").get = "DROP DATABASE test" :=
  ⟨rfl, rfl, rfl⟩

/-- C3, amended: a ValidQuery can also be obtained from an arbitrary string
through the public From conversion, bypassing build(); what does hold is that
the Client only ever transmits a string it obtained from a successful
build() of the query it was handed — every prepared request carries the
build() output as its body (Write) or its `q` parameter (Read). -/
theorem c3_client_transmits_only_built_queries (self : InfluxDbClient)
    (parseUrl : UrlParse) (q : InfluxDbQuery) (r : Request)
    (h : self.queryPrepare parseUrl q = .ok r) :
    (∀ s, ((ValidQuerySource.viaFrom s).result).get = s ∧
      (ValidQuerySource.viaFrom s).usedBuild = false) ∧
    ∃ v, q.build = Except.ok v ∧
      (r.body = some v.get ∨ ("q", v.get) ∈ r.url.params) := by
  refine ⟨fun s => ⟨rfl, rfl⟩, ?_⟩
  cases q with
  | Read rq =>
    refine ⟨⟨String.intercalate ";" rq.queries⟩, rfl, Or.inr ?_⟩
    simp only [InfluxDbClient.queryPrepare, InfluxDbQuery.build, InfluxDbReadQuery.build] at h
    cases hp : parseUrl (self.database_url ++ "/query") self.intoParamsRef with
    | error e => rw [hp] at h; simp at h
    | ok url =>
      rw [hp] at h
      simp only [ValidQuery.get] at h
      split at h <;>
      · simp only [Except.ok.injEq] at h
        subst h
        simp [Url.appendPair, ValidQuery.get]
  | Write wq =>
    cases hb : wq.build with
    | error e =>
      simp only [InfluxDbClient.queryPrepare, InfluxDbQuery.build, hb] at h
      simp at h
    | ok v =>
      refine ⟨v, hb, Or.inl ?_⟩
      simp only [InfluxDbClient.queryPrepare, InfluxDbQuery.build, hb] at h
      cases hp : parseUrl (self.database_url ++ "/write") self.intoParamsRef with
      | error e => rw [hp] at h; simp at h
      | ok url =>
        rw [hp] at h
        simp only [Except.ok.injEq] at h
        subst h
        rfl

/-- C3 witness: the amended theorem applied to a concrete client, a
succeeding parse oracle and the read query SELECT 1, whose prepared request
carries the built string as the `q` parameter. -/
theorem c3_client_transmits_only_built_queries_witness :
    (∀ s, ((ValidQuerySource.viaFrom s).result).get = s ∧
      (ValidQuerySource.viaFrom s).usedBuild = false) ∧
    ∃ v, (InfluxDbQuery.Read (InfluxDbReadQuery.new "SELECT 1")).build = Except.ok v ∧
      ((⟨.GET, ⟨"http://h/query", [("db", "db"), ("q", "SELECT 1")]⟩, none⟩ : Request).body
          = some v.get ∨
        ("q", v.get) ∈
          (⟨.GET, ⟨"http://h/query", [("db", "db"), ("q", "SELECT 1")]⟩, none⟩ : Request).url.params) :=
  c3_client_transmits_only_built_queries (InfluxDbClient.new "http://h" "db")
    (fun a ps => Except.ok ⟨a, ps⟩) (.Read (InfluxDbReadQuery.new "SELECT 1"))
    ⟨.GET, ⟨"http://h/query", [("db", "db"), ("q", "SELECT 1")]⟩, none⟩ rfl

/-- C4: for every read query whose rendered text contains neither SELECT nor
SHOW, json_query never reaches the send — it returns an error for every parse
outcome — and whenever the URL construction itself succeeds that error is
exactly the invalid-query rejection with the code's message. -/
theorem c4_json_query_rejects_non_select_show (self : InfluxDbClient)
    (parseUrl : UrlParse) (q : InfluxDbReadQuery)
    (h1 : strContains (readBuildValue q).get "SELECT" = false)
    (h2 : strContains (readBuildValue q).get "SHOW" = false) :
    (∀ r : Request, self.jsonQueryPrepare parseUrl q ≠ .ok r) ∧
    (∀ url, parseUrl (self.database_url ++ "/query") self.intoParamsRef = .ok url →
      self.jsonQueryPrepare parseUrl q =
        .error (.InvalidQueryError
          "Only SELECT and SHOW queries supported with JSON deserialization")) := by
  constructor
  · intro r hr
    simp only [InfluxDbClient.jsonQueryPrepare] at hr
    cases hp : parseUrl (self.database_url ++ "/query") self.intoParamsRef with
    | error e => rw [hp] at hr; simp at hr
    | ok url => rw [hp] at hr; rw [h1, h2] at hr; simp at hr
  · intro url hp
    simp only [InfluxDbClient.jsonQueryPrepare]
    rw [hp, h1, h2]
    simp

/-- C4 witness: the theorem applied to a concrete client with a succeeding
parse oracle and the read query CREATE DATABASE x, which contains neither
SELECT nor SHOW. -/
theorem c4_json_query_rejects_non_select_show_witness :
    (∀ r : Request,
      (InfluxDbClient.new "http://h" "db").jsonQueryPrepare (fun a ps => Except.ok ⟨a, ps⟩)
        (InfluxDbReadQuery.new "CREATE DATABASE x") ≠ .ok r) ∧
    (∀ url,
      (fun a ps => (Except.ok (Url.mk a ps) : Except String Url))
          ((InfluxDbClient.new "http://h" "db").database_url ++ "/query")
          (InfluxDbClient.new "http://h" "db").intoParamsRef = .ok url →
      (InfluxDbClient.new "http://h" "db").jsonQueryPrepare (fun a ps => Except.ok ⟨a, ps⟩)
        (InfluxDbReadQuery.new "CREATE DATABASE x") =
        .error (.InvalidQueryError
          "Only SELECT and SHOW queries supported with JSON deserialization")) :=
  c4_json_query_rejects_non_select_show (InfluxDbClient.new "http://h" "db")
    (fun a ps => Except.ok ⟨a, ps⟩) (InfluxDbReadQuery.new "CREATE DATABASE x")
    (by decide) (by decide)

/-- C5: for a response not classified by status 401/403, body bytes that are
not valid UTF-8 yield the deserialization error; decoded text containing the
literal substring "error" (in double quotes) yields a Database error wrapping
the raw body text; any other decoded text is returned as the success
value. -/
theorem c5_response_body_classification (status : Nat) (utf8Body : Option String)
    (hs1 : status ≠ 401) (hs2 : status ≠ 403) :
    (utf8Body = none →
      queryHandleResponse status utf8Body =
        .error (.DeserializationError "response could not be converted to UTF-8 encoded string")) ∧
    (∀ s, utf8Body = some s → strContains s "\"error\"" = true →
      queryHandleResponse status utf8Body =
        .error (.DatabaseError ("influxdb error: \"" ++ s ++ "\""))) ∧
    (∀ s, utf8Body = some s → strContains s "\"error\"" = false →
      queryHandleResponse status utf8Body = .ok s) := by
  have h1 : (status == 401) = false := by simpa using hs1
  have h2 : (status == 403) = false := by simpa using hs2
  refine ⟨?_, ?_, ?_⟩
  · rintro rfl; simp [queryHandleResponse, h1, h2]
  · rintro s rfl hc; simp [queryHandleResponse, h1, h2, hc]
  · rintro s rfl hc; simp [queryHandleResponse, h1, h2, hc]

/-- C5 witness: the theorem applied at status 200 and a body containing the
substring "error" in quotes, which is classified as a Database error even
though the status signalled success. -/
theorem c5_response_body_classification_witness :
    ((some "body with \"error\" inside" : Option String) = none →
      queryHandleResponse 200 (some "body with \"error\" inside") =
        .error (.DeserializationError "response could not be converted to UTF-8 encoded string")) ∧
    (∀ s, (some "body with \"error\" inside" : Option String) = some s →
      strContains s "\"error\"" = true →
      queryHandleResponse 200 (some "body with \"error\" inside") =
        .error (.DatabaseError ("influxdb error: \"" ++ s ++ "\""))) ∧
    (∀ s, (some "body with \"error\" inside" : Option String) = some s →
      strContains s "\"error\"" = false →
      queryHandleResponse 200 (some "body with \"error\" inside") = .ok s) :=
  c5_response_body_classification 200 (some "body with \"error\" inside") (by decide) (by decide)

/-- C6: whenever query() reaches the send, the request for a Read query uses
GET exactly when the rendered text contains SELECT or SHOW and POST
otherwise, and the request for a Write query always uses POST. -/
theorem c6_method_selection (self : InfluxDbClient) (parseUrl : UrlParse)
    (rq : InfluxDbReadQuery) (wq : InfluxDbWriteQuery) (r1 r2 : Request)
    (hr : self.queryPrepare parseUrl (.Read rq) = .ok r1)
    (hw : self.queryPrepare parseUrl (.Write wq) = .ok r2) :
    (r1.method = .GET ↔
      (strContains (String.intercalate ";" rq.queries) "SELECT" = true ∨
       strContains (String.intercalate ";" rq.queries) "SHOW" = true)) ∧
    (r1.method = .POST ↔
      ¬(strContains (String.intercalate ";" rq.queries) "SELECT" = true ∨
        strContains (String.intercalate ";" rq.queries) "SHOW" = true)) ∧
    r2.method = .POST := by
  have hm : r2.method = .POST := by
    simp only [InfluxDbClient.queryPrepare, InfluxDbQuery.build] at hw
    cases hb : wq.build with
    | error e => rw [hb] at hw; simp at hw
    | ok v =>
      rw [hb] at hw
      cases hp : parseUrl (self.database_url ++ "/write") self.intoParamsRef with
      | error e => rw [hp] at hw; simp at hw
      | ok url =>
        rw [hp] at hw
        simp only [Except.ok.injEq] at hw
        rw [← hw]
  refine ⟨?_, ?_, hm⟩ <;>
  · simp only [InfluxDbClient.queryPrepare, InfluxDbQuery.build, InfluxDbReadQuery.build] at hr
    cases hp : parseUrl (self.database_url ++ "/query") self.intoParamsRef with
    | error e => rw [hp] at hr; simp at hr
    | ok url =>
      rw [hp] at hr
      simp only [ValidQuery.get] at hr
      cases hb : (strContains (String.intercalate ";" rq.queries) "SELECT" ||
          strContains (String.intercalate ";" rq.queries) "SHOW") with
      | true =>
        rw [hb] at hr
        simp only [if_true, Except.ok.injEq] at hr
        subst hr
        simp_all [Bool.or_eq_true]
      | false =>
        rw [hb] at hr
        simp only [Bool.false_eq_true, if_false, Except.ok.injEq] at hr
        subst hr
        simp_all [Bool.or_eq_true]

/-- C6 witness: the theorem applied to a concrete client and parse oracle
with the read query SELECT 1 (prepared as GET) and a one-field write query
(prepared as POST). -/
theorem c6_method_selection_witness :
    ((⟨.GET, ⟨"http://h/query", [("db", "db"), ("q", "SELECT 1")]⟩, none⟩ : Request).method = .GET ↔
      (strContains (String.intercalate ";" (InfluxDbReadQuery.new "SELECT 1").queries) "SELECT" = true ∨
       strContains (String.intercalate ";" (InfluxDbReadQuery.new "SELECT 1").queries) "SHOW" = true)) ∧
    ((⟨.GET, ⟨"http://h/query", [("db", "db"), ("q", "SELECT 1")]⟩, none⟩ : Request).method = .POST ↔
      ¬(strContains (String.intercalate ";" (InfluxDbReadQuery.new "SELECT 1").queries) "SELECT" = true ∨
        strContains (String.intercalate ";" (InfluxDbReadQuery.new "SELECT 1").queries) "SHOW" = true)) ∧
    (⟨.POST, ⟨"http://h/write", [("db", "db"), ("precision", "ns")]⟩, some "m f=true"⟩ : Request).method = .POST :=
  c6_method_selection (InfluxDbClient.new "http://h" "db") (fun a ps => Except.ok ⟨a, ps⟩)
    (InfluxDbReadQuery.new "SELECT 1")
    ((InfluxDbWriteQuery.new .NOW "m").add_field "f" (.Boolean true))
    ⟨.GET, ⟨"http://h/query", [("db", "db"), ("q", "SELECT 1")]⟩, none⟩
    ⟨.POST, ⟨"http://h/write", [("db", "db"), ("precision", "ns")]⟩, some "m f=true"⟩
    rfl rfl

/-- C7: a read query built from a first statement and a list of further
statements holds exactly those statements in order; building always succeeds
and yields them joined with a semicolon; and every read query constructible
through the public interface has a non-empty statement list. -/
theorem c7_read_build_joins_statements (first : String) (rest : List String)
    (q : InfluxDbReadQuery) (h : q.Reachable) :
    (readFromStatements first rest).queries = first :: rest ∧
    (readFromStatements first rest).build =
      Except.ok ⟨String.intercalate ";" (first :: rest)⟩ ∧
    q.build = Except.ok ⟨String.intercalate ";" q.queries⟩ ∧
    q.queries ≠ [] := by
  have hq : (readFromStatements first rest).queries = first :: rest := by
    simp [readFromStatements, readFold_queries, InfluxDbReadQuery.new]
  refine ⟨hq, ?_, rfl, ?_⟩
  · simp [InfluxDbReadQuery.build, hq]
  · induction h with
    | new s => simp [InfluxDbReadQuery.new]
    | add q s hr ih => simp [InfluxDbReadQuery.add]

/-- C7 witness: the theorem applied to the spec's two-statement scenario and
a concrete reachable query built by new followed by add. -/
theorem c7_read_build_joins_statements_witness :
    (readFromStatements "SELECT * FROM a" ["SELECT * FROM b"]).queries =
      "SELECT * FROM a" :: ["SELECT * FROM b"] ∧
    (readFromStatements "SELECT * FROM a" ["SELECT * FROM b"]).build =
      Except.ok ⟨String.intercalate ";" ("SELECT * FROM a" :: ["SELECT * FROM b"])⟩ ∧
    ((InfluxDbReadQuery.new "x").add "y").build =
      Except.ok ⟨String.intercalate ";" ((InfluxDbReadQuery.new "x").add "y").queries⟩ ∧
    ((InfluxDbReadQuery.new "x").add "y").queries ≠ [] :=
  c7_read_build_joins_statements "SELECT * FROM a" ["SELECT * FROM b"]
    ((InfluxDbReadQuery.new "x").add "y") (.add _ "y" (.new "x"))

/-- C8: building a write query fails with the InvalidQuery error kind exactly
when zero fields were added; with at least one field it succeeds, and
replacing the tag list by any other never changes whether it succeeds. -/
theorem c8_write_build_requires_fields (q : InfluxDbWriteQuery) :
    (q.fields = [] →
      q.build = .error (.InvalidQueryError "fields are required to construct a valid write query")) ∧
    ((∃ v, q.build = Except.ok v) ↔ q.fields ≠ []) ∧
    (∀ tags,
      ((∃ v, (InfluxDbWriteQuery.mk q.measurement tags q.fields q.timestamp).build = Except.ok v) ↔
        q.fields ≠ [])) := by
  refine ⟨?_, ?_, ?_⟩
  · intro hf; simp [InfluxDbWriteQuery.build, hf]
  · cases hf : q.fields with
    | nil => simp [InfluxDbWriteQuery.build, hf]
    | cons a l => simp [InfluxDbWriteQuery.build, hf]
  · intro tags
    cases hf : q.fields with
    | nil => simp [InfluxDbWriteQuery.build, hf]
    | cons a l => simp [InfluxDbWriteQuery.build, hf]

/-- C9: the borrowed and owned parameter conversions of a client produce the
same list; it is [(db, database)] without credentials and
[(db, database), (u, username), (p, password)] in that order with them. -/
theorem c9_basic_parameters (self : InfluxDbClient) :
    self.intoParamsRef = self.intoParams ∧
    (self.auth = none → self.intoParams = [("db", self.database)]) ∧
    (∀ username password,
      self.auth = some ⟨username, password⟩ →
      self.intoParams = [("db", self.database), ("u", username), ("p", password)]) := by
  obtain ⟨url, database, auth⟩ := self
  cases auth with
  | none => simp [InfluxDbClient.intoParams, InfluxDbClient.intoParamsRef]
  | some a =>
    obtain ⟨u, p⟩ := a
    refine ⟨rfl, by simp, ?_⟩
    intro un pw h
    simp only [Option.some.injEq, InfluxDbAuthentication.mk.injEq] at h
    simp [InfluxDbClient.intoParams, h.1, h.2]

/-- C10: rendering Timestamp NOW yields the empty string; rendering any
unit-tagged variant yields the decimal string of its integer, identical
across all six units; and the integer of a unit-tagged timestamp is a Nat
(usize), hence non-negative. -/
theorem c10_timestamp_rendering :
    Timestamp.fmt .NOW = "" ∧
    (∀ n : Nat,
      Timestamp.fmt (.NANOSECONDS n) = Nat.repr n ∧
      Timestamp.fmt (.MICROSECONDS n) = Nat.repr n ∧
      Timestamp.fmt (.MILLISECONDS n) = Nat.repr n ∧
      Timestamp.fmt (.SECONDS n) = Nat.repr n ∧
      Timestamp.fmt (.MINUTES n) = Nat.repr n ∧
      Timestamp.fmt (.HOURS n) = Nat.repr n) ∧
    (∀ (t : Timestamp) (v : Nat),
      t.value = some v → t.fmt = Nat.repr v ∧ (0 : Int) ≤ (v : Int)) := by
  refine ⟨rfl, fun n => ⟨rfl, rfl, rfl, rfl, rfl, rfl⟩, ?_⟩
  intro t v h
  cases t <;> simp [Timestamp.value] at h <;> subst h <;>
    exact ⟨rfl, Int.ofNat_nonneg _⟩

end Influx
